import Mathlib

/-!
Verification of `torchft/utils.py`: a three-function shim normalizing
accelerator-stream handling (CUDA, XPU, or none) behind a uniform interface.

The embedding models the accelerator runtime state the shim reads as a
`World`, and each function as a pure Lean function returning its result
together with the ordered list of runtime calls it performs.  Python's
short-circuit `and` is respected: an availability query appears in the trace
only when the string comparison before it succeeds.  The scoped-context
values returned by `get_stream_context` are given enter/exit semantics over
the per-family implicit current-stream state, and a trace executor models
exception propagation from the underlying runtime calls.
-/

namespace Torchft

/-- A device, as the `device` attribute of a torch stream.  The shim inspects
only its `type` string tag. -/
structure Device where
  type : String
  deriving DecidableEq, Repr

/-- An accelerator stream handle: an opaque identity plus its device. -/
structure Stream where
  device : Device
  id : Nat
  deriving DecidableEq, Repr

/-- The accelerator-runtime state visible to the shim: the availability
reported by `torch.cuda.is_available()`, `torch.xpu.is_available()` and
`torch.accelerator.is_available()`, the stream `torch.accelerator.current_stream()`
returns, and the runtime's allocation counter for fresh event objects. -/
structure World where
  cudaAvailable : Bool
  xpuAvailable : Bool
  acceleratorAvailable : Bool
  currentStream : Stream
  nextEventId : Nat
  deriving DecidableEq, Repr

/-- A single call into the accelerator runtime, in the order the shim makes
them.  `mkCudaEvent b eid` is `torch.cuda.Event(interprocess=b)` allocating
event object `eid`; `mkXpuEvent eid` is `torch.xpu.Event()`;
`recordEventOn s eid` is `s.record_event(e)` for event `eid`;
`streamSynchronize s` is `s.synchronize()`. -/
inductive RuntimeCall where
  | queryCudaAvailable
  | queryXpuAvailable
  | queryAcceleratorAvailable
  | queryCurrentStream
  | mkCudaStreamCtx (s : Stream)
  | mkXpuStreamCtx (s : Stream)
  | mkCudaEvent ( interprocess : Bool) (eid : Nat)
  | mkXpuEvent (eid : Nat)
  | recordEventOn (s : Stream) (eid : Nat)
  | streamSynchronize (s : Stream)
  deriving DecidableEq, Repr

/-- Availability queries and current-stream reads: pure reads of runtime
state, distinguished by the spec from the runtime's stream/event/synchronize
primitives. -/
def RuntimeCall.isQuery : RuntimeCall → Bool
  | .queryCudaAvailable => true
  | .queryXpuAvailable => true
  | .queryAcceleratorAvailable => true
  | .queryCurrentStream => true
  | _ => false

/-- Construction of a family's scoped stream-context object.  No work is
submitted and no stream state changes until the context is entered. -/
def RuntimeCall.isCtxConstruction : RuntimeCall → Bool
  | .mkCudaStreamCtx _ => true
  | .mkXpuStreamCtx _ => true
  | _ => false

/-- Calls into the runtime's event/synchronize work primitives: the shim's
observable accelerator side effects. -/
def RuntimeCall.isEffect : RuntimeCall → Bool
  | .mkCudaEvent _ _ => true
  | .mkXpuEvent _ => true
  | .recordEventOn _ _ => true
  | .streamSynchronize _ => true
  | _ => false

/-- Erase the identity of freshly allocated event objects from a call,
keeping which primitive is called, on which stream, and with which
capability flags. -/
def RuntimeCall.shape : RuntimeCall → RuntimeCall
  | .mkCudaEvent b _ => .mkCudaEvent b 0
  | .mkXpuEvent _ => .mkXpuEvent 0
  | .recordEventOn s _ => .recordEventOn s 0
  | c => c

/-- The context-manager value `get_stream_context` returns:
`torch.cuda.stream(s)`, `torch.xpu.stream(s)`, or `contextlib.nullcontext()`. -/
inductive StreamContext where
  | cudaStreamCtx (s : Stream)
  | xpuStreamCtx (s : Stream)
  | nullcontext
  deriving DecidableEq, Repr

/-- Shallow embedding of `get_stream_context(stream)` from `torchft/utils.py`.
Returns the context-manager value together with the runtime calls the
dispatch performs.  The branch structure mirrors the source: if a stream is
given, its `device.type` is compared against `"cuda"` and then `"xpu"`, each
comparison short-circuiting the family's availability query; all remaining
cases, including `stream = None`, yield `nullcontext`. -/
def get_stream_context (w : World) (stream : Option Stream) :
    StreamContext × List RuntimeCall :=
  match stream with
  | some s =>
    if s.device.type = "cuda" then
      if w.cudaAvailable then
        (StreamContext.cudaStreamCtx s,
          [RuntimeCall.queryCudaAvailable, RuntimeCall.mkCudaStreamCtx s])
      else
        (StreamContext.nullcontext, [RuntimeCall.queryCudaAvailable])
    else if s.device.type = "xpu" then
      if w.xpuAvailable then
        (StreamContext.xpuStreamCtx s,
          [RuntimeCall.queryXpuAvailable, RuntimeCall.mkXpuStreamCtx s])
      else
        (StreamContext.nullcontext, [RuntimeCall.queryXpuAvailable])
    else
      (StreamContext.nullcontext, [])
  | none => (StreamContext.nullcontext, [])

/-- Shallow embedding of `record_event()` from `torchft/utils.py`.  The
Python function returns `None`; here the returned `World` carries the
runtime's advanced event-allocation counter, and the trace records the calls
made: when an accelerator is available the current stream is obtained, and a
fresh `torch.cuda.Event(interprocess=True)` (resp. `torch.xpu.Event()`) is
constructed and recorded on it when its device type is `"cuda"`
(resp. `"xpu"`); any other device type falls to the inert `pass` branch. -/
def record_event (w : World) : World × List RuntimeCall :=
  if w.acceleratorAvailable then
    if w.currentStream.device.type = "cuda" then
      ({ w with nextEventId := w.nextEventId + 1 },
        [RuntimeCall.queryAcceleratorAvailable, RuntimeCall.queryCurrentStream,
         RuntimeCall.mkCudaEvent true w.nextEventId,
         RuntimeCall.recordEventOn w.currentStream w.nextEventId])
    else if w.currentStream.device.type = "xpu" then
      ({ w with nextEventId := w.nextEventId + 1 },
        [RuntimeCall.queryAcceleratorAvailable, RuntimeCall.queryCurrentStream,
         RuntimeCall.mkXpuEvent w.nextEventId,
         RuntimeCall.recordEventOn w.currentStream w.nextEventId])
    else
      (w, [RuntimeCall.queryAcceleratorAvailable, RuntimeCall.queryCurrentStream])
  else
    (w, [RuntimeCall.queryAcceleratorAvailable])

/-- Shallow embedding of `synchronize()` from `torchft/utils.py`: when an
accelerator is available, `torch.accelerator.current_stream().synchronize()`
is called; otherwise only the availability query happens. -/
def synchronize (w : World) : World × List RuntimeCall :=
  if w.acceleratorAvailable then
    (w, [RuntimeCall.queryAcceleratorAvailable, RuntimeCall.queryCurrentStream,
         RuntimeCall.streamSynchronize w.currentStream])
  else
    (w, [RuntimeCall.queryAcceleratorAvailable])

/-- The implicit per-family current-stream targets that entering a scoped
stream context overrides and exiting restores. -/
structure StreamState where
  cudaCurrent : Stream
  xpuCurrent : Stream
  deriving DecidableEq, Repr

/-- Entering a context: a family's stream context makes its stream that
family's implicit target; `nullcontext` does nothing. -/
def ctxEnter : StreamContext → StreamState → StreamState
  | StreamContext.cudaStreamCtx s, st => { st with cudaCurrent := s }
  | StreamContext.xpuStreamCtx s, st => { st with xpuCurrent := s }
  | StreamContext.nullcontext, st => st

/-- Exiting a context: a family's stream context writes back the family
target saved when it was entered; `nullcontext` does nothing. -/
def ctxExitRestore : StreamContext → StreamState → StreamState → StreamState
  | StreamContext.cudaStreamCtx _, saved, st => { st with cudaCurrent := saved.cudaCurrent }
  | StreamContext.xpuStreamCtx _, saved, st => { st with xpuCurrent := saved.xpuCurrent }
  | StreamContext.nullcontext, _, st => st

/-- Number of restore writes a context performs at exit. -/
def restoreCount : StreamContext → Nat
  | StreamContext.cudaStreamCtx _ => 1
  | StreamContext.xpuStreamCtx _ => 1
  | StreamContext.nullcontext => 0

/-- Scoped use `with c: body`: the prior state is saved, the context is
entered, the body runs — finishing normally or raising, as its `Except`
result — and the exit restore runs on every path, with the body's outcome
returned unchanged. -/
def withCtx (c : StreamContext) (st : StreamState)
    (body : StreamState → StreamState × Except String Unit) :
    StreamState × Except String Unit :=
  let stIn := ctxEnter c st
  let out := body stIn
  (ctxExitRestore c st out.1, out.2)

/-- Execute a trace of runtime calls in order against an oracle saying which
calls raise: the first raising call aborts execution with its error, which
is propagated uncaught; if no call raises, execution finishes normally. -/
def runCalls (fail : RuntimeCall → Option String) :
    List RuntimeCall → Except String Unit
  | [] => Except.ok ()
  | c :: cs =>
    match fail c with
    | some e => Except.error e
    | none => runCalls fail cs

/-- Sample stream on a CUDA device. -/
def sCuda : Stream := { device := { type := "cuda" }, id := 0 }

/-- Sample stream on an XPU device. -/
def sXpu : Stream := { device := { type := "xpu" }, id := 1 }

/-- Sample stream on a CPU device (unrecognized family for the shim). -/
def sCpu : Stream := { device := { type := "cpu" }, id := 2 }

/-- Sample world with every runtime available and a CUDA current stream. -/
def wAll : World :=
  { cudaAvailable := true, xpuAvailable := true, acceleratorAvailable := true,
    currentStream := sCuda, nextEventId := 5 }

/-- Sample world with no runtime available. -/
def wBare : World :=
  { cudaAvailable := false, xpuAvailable := false, acceleratorAvailable := false,
    currentStream := sCpu, nextEventId := 0 }

/-- Sample oracle: the accelerator-availability query raises `boom`. -/
def failAvail : RuntimeCall → Option String :=
  fun c => if c = RuntimeCall.queryAcceleratorAvailable then some "boom" else none

/-- Sample oracle under which no runtime call raises. -/
def failNone : RuntimeCall → Option String := fun _ => none

/-- Sample stream state for context-semantics witnesses. -/
def st0 : StreamState := { cudaCurrent := sCuda, xpuCurrent := sXpu }

/-- Sample world agreeing with `wAll` on accelerator availability and current
stream but differing everywhere else. -/
def wAlt : World :=
  { cudaAvailable := false, xpuAvailable := false, acceleratorAvailable := true,
    currentStream := sCuda, nextEventId := 99 }

/-- Whether a runtime call is an invocation of a stream's synchronize
primitive. -/
def RuntimeCall.isSyncCall : RuntimeCall → Bool
  | .streamSynchronize _ => true
  | _ => false

theorem runCalls_ok_of_none (fail : RuntimeCall → Option String) :
    ∀ l : List RuntimeCall, (∀ c ∈ l, fail c = none) →
      runCalls fail l = Except.ok ()
  | [], _ => rfl
  | c :: cs, h => by
    have hc : fail c = none := h c (List.mem_cons_self c cs)
    simp only [runCalls, hc]
    exact runCalls_ok_of_none fail cs fun d hd => h d (List.mem_cons_of_mem c hd)

theorem runCalls_error_mem (fail : RuntimeCall → Option String) (e : String) :
    ∀ l : List RuntimeCall, runCalls fail l = Except.error e →
      ∃ c, c ∈ l ∧ fail c = some e := by
  intro l
  induction l with
  | nil => intro h; exact absurd h (by simp [runCalls])
  | cons c cs ih =>
    intro h
    cases hc : fail c with
    | some e₂ =>
      refine ⟨c, List.mem_cons_self c cs, ?_⟩
      rw [hc]
      simp only [runCalls, hc] at h
      cases h
      rfl
    | none =>
      simp only [runCalls, hc] at h
      obtain ⟨d, hd, hfd⟩ := ih h
      exact ⟨d, List.mem_cons_of_mem c hd, hfd⟩

theorem withCtx_restore_aux (c : StreamContext) (st : StreamState)
    (body : StreamState → StreamState × Except String Unit) :
    (withCtx c st body).2 = (body (ctxEnter c st)).2 ∧
    ctxExitRestore c st (ctxEnter c st) = st ∧
    (match c with
     | StreamContext.cudaStreamCtx _ =>
        (withCtx c st body).1.cudaCurrent = st.cudaCurrent ∧ restoreCount c = 1
     | StreamContext.xpuStreamCtx _ =>
        (withCtx c st body).1.xpuCurrent = st.xpuCurrent ∧ restoreCount c = 1
     | StreamContext.nullcontext => (withCtx c st body).1 = (body st).1) := by
  cases c <;> simp [withCtx, ctxEnter, ctxExitRestore, restoreCount]

/-- Claim C1: for a stream whose device type is "cuda" with the CUDA runtime
reported available, `get_stream_context` returns the CUDA family's scoped
stream context wrapping exactly the given stream; analogously, for an "xpu"
stream with the XPU runtime available it returns the XPU stream context. -/
theorem get_stream_context_family (w : World) (s : Stream) :
    (s.device.type = "cuda" → w.cudaAvailable = true →
      (get_stream_context w (some s)).1 = StreamContext.cudaStreamCtx s) ∧
    (s.device.type = "xpu" → w.xpuAvailable = true →
      (get_stream_context w (some s)).1 = StreamContext.xpuStreamCtx s) := by
  constructor
  · intro h1 h2
    simp [get_stream_context, h1, h2]
  · intro h1 h2
    simp [get_stream_context, h1, h2]

/-- Witness for C1 at concrete streams and an all-available world. -/
theorem get_stream_context_family_witness :
    (get_stream_context wAll (some sCuda)).1 = StreamContext.cudaStreamCtx sCuda ∧
    (get_stream_context wAll (some sXpu)).1 = StreamContext.xpuStreamCtx sXpu :=
  ⟨(get_stream_context_family wAll sCuda).1 rfl rfl,
   (get_stream_context_family wAll sXpu).2 rfl rfl⟩

/-- Claim C2: for a stream whose device type matches no available recognized
family — neither "cuda" with CUDA available nor "xpu" with XPU available —
`get_stream_context` returns the no-op context, identical to the result for
`stream = None`. -/
theorem get_stream_context_noop_fallback (w : World) (s : Stream)
    (hc : ¬(s.device.type = "cuda" ∧ w.cudaAvailable = true))
    (hx : ¬(s.device.type = "xpu" ∧ w.xpuAvailable = true)) :
    (get_stream_context w (some s)).1 = StreamContext.nullcontext ∧
    (get_stream_context w (some s)).1 = (get_stream_context w none).1 := by
  have key : (get_stream_context w (some s)).1 = StreamContext.nullcontext := by
    by_cases h1 : s.device.type = "cuda"
    · have hav : w.cudaAvailable = false := by
        cases hca : w.cudaAvailable
        · rfl
        · exact absurd ⟨h1, hca⟩ hc
      simp [get_stream_context, h1, hav]
    · by_cases h2 : s.device.type = "xpu"
      · have hav : w.xpuAvailable = false := by
          cases hxa : w.xpuAvailable
          · rfl
          · exact absurd ⟨h2, hxa⟩ hx
        simp [get_stream_context, h1, h2, hav]
      · simp [get_stream_context, h1, h2]
  exact ⟨key, by rw [key]; rfl⟩

/-- Witness for C2: a CPU-device stream in an all-available world. -/
theorem get_stream_context_noop_fallback_witness :
    (get_stream_context wAll (some sCpu)).1 = StreamContext.nullcontext ∧
    (get_stream_context wAll (some sCpu)).1 = (get_stream_context wAll none).1 :=
  get_stream_context_noop_fallback wAll sCpu (by decide) (by decide)

/-- Claim C5: `get_stream_context(None)` is the no-op scoped context: its
dispatch performs no runtime call, and the context's enter and exit leave the
implicit stream targets untouched, adding no observable effect to the
body's. -/
theorem get_stream_context_none_noop (w : World) (st : StreamState)
    (body : StreamState → StreamState × Except String Unit) :
    get_stream_context w none = (StreamContext.nullcontext, []) ∧
    ctxEnter StreamContext.nullcontext st = st ∧
    ctxExitRestore StreamContext.nullcontext st st = st ∧
    withCtx StreamContext.nullcontext st body = body st :=
  ⟨rfl, rfl, rfl, rfl⟩

/-- Claim C6: when no accelerator is available, `record_event` and
`synchronize` return normally having performed only the availability query —
no effectful runtime call — and raise no exception when that query does not
itself raise. -/
theorem no_accelerator_noop (w : World) (fail : RuntimeCall → Option String)
    (h : w.acceleratorAvailable = false)
    (hq : fail RuntimeCall.queryAcceleratorAvailable = none) :
    record_event w = (w, [RuntimeCall.queryAcceleratorAvailable]) ∧
    synchronize w = (w, [RuntimeCall.queryAcceleratorAvailable]) ∧
    (∀ c ∈ (record_event w).2, RuntimeCall.isEffect c = false) ∧
    (∀ c ∈ (synchronize w).2, RuntimeCall.isEffect c = false) ∧
    runCalls fail (record_event w).2 = Except.ok () ∧
    runCalls fail (synchronize w).2 = Except.ok () := by
  have hr : record_event w = (w, [RuntimeCall.queryAcceleratorAvailable]) := by
    simp [record_event, h]
  have hs : synchronize w = (w, [RuntimeCall.queryAcceleratorAvailable]) := by
    simp [synchronize, h]
  refine ⟨hr, hs, ?_, ?_, ?_, ?_⟩ <;>
    simp [hr, hs, runCalls, hq, RuntimeCall.isEffect]

/-- Witness for C6 at the bare world with a never-raising oracle. -/
theorem no_accelerator_noop_witness :
    record_event wBare = (wBare, [RuntimeCall.queryAcceleratorAvailable]) ∧
    runCalls failNone (synchronize wBare).2 = Except.ok () :=
  ⟨(no_accelerator_noop wBare failNone rfl rfl).1,
   (no_accelerator_noop wBare failNone rfl rfl).2.2.2.2.2⟩

/-- Claim C3: `record_event` with an accelerator available obtains the
current stream; on a "cuda" stream it constructs a new interprocess-capable
CUDA event and records it on that stream, on an "xpu" stream it constructs a
new process-local XPU event and records it on that stream, and on any other
device type it performs no action beyond the reads; the embedding carries no
value component, matching the Python function's `None` return in all
cases. -/
theorem record_event_dispatch (w : World) :
    (w.acceleratorAvailable = true → w.currentStream.device.type = "cuda" →
      (record_event w).2 =
        [RuntimeCall.queryAcceleratorAvailable, RuntimeCall.queryCurrentStream,
         RuntimeCall.mkCudaEvent true w.nextEventId,
         RuntimeCall.recordEventOn w.currentStream w.nextEventId]) ∧
    (w.acceleratorAvailable = true → w.currentStream.device.type = "xpu" →
      (record_event w).2 =
        [RuntimeCall.queryAcceleratorAvailable, RuntimeCall.queryCurrentStream,
         RuntimeCall.mkXpuEvent w.nextEventId,
         RuntimeCall.recordEventOn w.currentStream w.nextEventId]) ∧
    (w.acceleratorAvailable = true → w.currentStream.device.type ≠ "cuda" →
      w.currentStream.device.type ≠ "xpu" →
      (record_event w).1 = w ∧
      ∀ c ∈ (record_event w).2, RuntimeCall.isEffect c = false) := by
  refine ⟨?_, ?_, ?_⟩
  · intro h1 h2
    simp [record_event, h1, h2]
  · intro h1 h2
    simp [record_event, h1, h2]
  · intro h1 h2 h3
    constructor
    · simp [record_event, h1, h2, h3]
    · intro c hc
      simp [record_event, h1, h2, h3] at hc
      rcases hc with hc | hc <;> simp [hc, RuntimeCall.isEffect]

/-- Witness for C3: the all-available world has a CUDA current stream. -/
theorem record_event_dispatch_witness :
    (record_event wAll).2 =
      [RuntimeCall.queryAcceleratorAvailable, RuntimeCall.queryCurrentStream,
       RuntimeCall.mkCudaEvent true wAll.nextEventId,
       RuntimeCall.recordEventOn wAll.currentStream wAll.nextEventId] :=
  (record_event_dispatch wAll).1 rfl rfl

/-- Claim C4: `synchronize` with an accelerator available obtains the current
stream and invokes its synchronize primitive exactly once — stream/event work
submitted before the call completes before it returns; with no accelerator it
returns at once after the availability query, making no call into the
runtime's work primitives. -/
theorem synchronize_dispatch (w : World) :
    (w.acceleratorAvailable = true →
      synchronize w =
        (w, [RuntimeCall.queryAcceleratorAvailable, RuntimeCall.queryCurrentStream,
             RuntimeCall.streamSynchronize w.currentStream]) ∧
      (synchronize w).2.countP (fun c => RuntimeCall.isSyncCall c) = 1) ∧
    (w.acceleratorAvailable = false →
      synchronize w = (w, [RuntimeCall.queryAcceleratorAvailable]) ∧
      ∀ c ∈ (synchronize w).2, RuntimeCall.isQuery c = true) := by
  constructor
  · intro h
    constructor
    · simp [synchronize, h]
    · simp [synchronize, h, List.countP_cons, RuntimeCall.isSyncCall]
  · intro h
    constructor
    · simp [synchronize, h]
    · intro c hc
      simp [synchronize, h] at hc
      simp [hc, RuntimeCall.isQuery]

/-- Witness for C4 at both an available and an unavailable world. -/
theorem synchronize_dispatch_witness :
    synchronize wAll =
      (wAll, [RuntimeCall.queryAcceleratorAvailable, RuntimeCall.queryCurrentStream,
              RuntimeCall.streamSynchronize wAll.currentStream]) ∧
    synchronize wBare = (wBare, [RuntimeCall.queryAcceleratorAvailable]) :=
  ⟨((synchronize_dispatch wAll).1 rfl).1, ((synchronize_dispatch wBare).2 rfl).1⟩

/-- Claim C7: none of the three operations catches or recovers from
exceptions: running any of their call traces against a raising oracle either
finishes normally when no call raises, or aborts with exactly the error some
runtime call raised, propagated unchanged to the caller. -/
theorem shim_propagates_errors (w : World) (os : Option Stream)
    (fail : RuntimeCall → Option String) (e : String) :
    (runCalls fail (get_stream_context w os).2 = Except.error e →
      ∃ c, c ∈ (get_stream_context w os).2 ∧ fail c = some e) ∧
    (runCalls fail (record_event w).2 = Except.error e →
      ∃ c, c ∈ (record_event w).2 ∧ fail c = some e) ∧
    (runCalls fail (synchronize w).2 = Except.error e →
      ∃ c, c ∈ (synchronize w).2 ∧ fail c = some e) ∧
    ((∀ c ∈ (get_stream_context w os).2, fail c = none) →
      runCalls fail (get_stream_context w os).2 = Except.ok ()) ∧
    ((∀ c ∈ (record_event w).2, fail c = none) →
      runCalls fail (record_event w).2 = Except.ok ()) ∧
    ((∀ c ∈ (synchronize w).2, fail c = none) →
      runCalls fail (synchronize w).2 = Except.ok ()) :=
  ⟨runCalls_error_mem fail e _, runCalls_error_mem fail e _,
   runCalls_error_mem fail e _, runCalls_ok_of_none fail _,
   runCalls_ok_of_none fail _, runCalls_ok_of_none fail _⟩

/-- Witness for C7: with a never-raising oracle all three traces run to
normal completion. -/
theorem shim_propagates_errors_witness :
    runCalls failNone (synchronize wAll).2 = Except.ok () ∧
    runCalls failNone (record_event wAll).2 = Except.ok () ∧
    runCalls failNone (get_stream_context wAll (some sCuda)).2 = Except.ok () :=
  ⟨(shim_propagates_errors wAll (some sCuda) failNone "boom").2.2.2.2.2
      (fun _ _ => rfl),
   (shim_propagates_errors wAll (some sCuda) failNone "boom").2.2.2.2.1
      (fun _ _ => rfl),
   (shim_propagates_errors wAll (some sCuda) failNone "boom").2.2.2.1
      (fun _ _ => rfl)⟩

/-- Claim C8: every context `get_stream_context` returns is safe as a scoped
acquisition: the body's outcome — normal or raising — is returned unchanged,
exit exactly undoes enter's change, and on every exit path a family context
restores its family's prior implicit stream target with exactly one restore
write, while the no-op context introduces no state change of its own. -/
theorem get_stream_context_scoped (w : World) (os : Option Stream)
    (st : StreamState) (body : StreamState → StreamState × Except String Unit) :
    (withCtx (get_stream_context w os).1 st body).2
        = (body (ctxEnter (get_stream_context w os).1 st)).2 ∧
    ctxExitRestore (get_stream_context w os).1 st
        (ctxEnter (get_stream_context w os).1 st) = st ∧
    (match (get_stream_context w os).1 with
     | StreamContext.cudaStreamCtx _ =>
        (withCtx (get_stream_context w os).1 st body).1.cudaCurrent
            = st.cudaCurrent ∧
        restoreCount (get_stream_context w os).1 = 1
     | StreamContext.xpuStreamCtx _ =>
        (withCtx (get_stream_context w os).1 st body).1.xpuCurrent
            = st.xpuCurrent ∧
        restoreCount (get_stream_context w os).1 = 1
     | StreamContext.nullcontext =>
        (withCtx (get_stream_context w os).1 st body).1 = (body st).1) :=
  withCtx_restore_aux (get_stream_context w os).1 st body

/-- Claim C9: `get_stream_context` is total — its result is always one of the
three context-manager values, never absent — and its dispatch performs no
accelerator side effect at call time: every runtime call in its trace is an
availability query or a context construction, a family's context is only
constructed when that family is available, and with `stream = None` no
runtime call at all is made. -/
theorem get_stream_context_total_pure (w : World) (os : Option Stream) :
    ((get_stream_context w os).1 = StreamContext.nullcontext ∨
     (∃ s, os = some s ∧
        (get_stream_context w os).1 = StreamContext.cudaStreamCtx s ∧
        w.cudaAvailable = true) ∨
     (∃ s, os = some s ∧
        (get_stream_context w os).1 = StreamContext.xpuStreamCtx s ∧
        w.xpuAvailable = true)) ∧
    (∀ c ∈ (get_stream_context w os).2,
       RuntimeCall.isQuery c = true ∨ RuntimeCall.isCtxConstruction c = true) ∧
    (∀ c ∈ (get_stream_context w os).2, RuntimeCall.isEffect c = false) ∧
    (∀ s, RuntimeCall.mkCudaStreamCtx s ∈ (get_stream_context w os).2 →
       w.cudaAvailable = true) ∧
    (∀ s, RuntimeCall.mkXpuStreamCtx s ∈ (get_stream_context w os).2 →
       w.xpuAvailable = true) ∧
    (get_stream_context w none).2 = [] := by
  match os with
  | none =>
    refine ⟨Or.inl rfl, ?_, ?_, ?_, ?_, rfl⟩ <;> simp [get_stream_context]
  | some s =>
    by_cases h1 : s.device.type = "cuda"
    · cases hca : w.cudaAvailable
      · refine ⟨Or.inl ?_, ?_, ?_, ?_, ?_, rfl⟩ <;>
          simp [get_stream_context, h1, hca, RuntimeCall.isQuery,
            RuntimeCall.isCtxConstruction, RuntimeCall.isEffect]
      · refine ⟨Or.inr (Or.inl ⟨s, rfl, ?_, rfl⟩), ?_, ?_, ?_, ?_, rfl⟩ <;>
          simp [get_stream_context, h1, hca, RuntimeCall.isQuery,
            RuntimeCall.isCtxConstruction, RuntimeCall.isEffect]
    · by_cases h2 : s.device.type = "xpu"
      · cases hxa : w.xpuAvailable
        · refine ⟨Or.inl ?_, ?_, ?_, ?_, ?_, rfl⟩ <;>
            simp [get_stream_context, h1, h2, hxa, RuntimeCall.isQuery,
              RuntimeCall.isCtxConstruction, RuntimeCall.isEffect]
        · refine ⟨Or.inr (Or.inr ⟨s, rfl, ?_, rfl⟩), ?_, ?_, ?_, ?_, rfl⟩ <;>
            simp [get_stream_context, h1, h2, hxa, RuntimeCall.isQuery,
              RuntimeCall.isCtxConstruction, RuntimeCall.isEffect]
      · refine ⟨Or.inl ?_, ?_, ?_, ?_, ?_, rfl⟩ <;>
          simp [get_stream_context, h1, h2]

/-- Witness for C9: concrete trace facts at an all-available world. -/
theorem get_stream_context_total_pure_witness :
    RuntimeCall.isEffect RuntimeCall.queryCudaAvailable = false ∧
    (get_stream_context wAll none).2 = [] :=
  ⟨(get_stream_context_total_pure wAll (some sCuda)).2.2.1
      RuntimeCall.queryCudaAvailable (by decide),
   (get_stream_context_total_pure wAll none).2.2.2.2.2⟩

/-- Claim C10: the shim holds no state of its own: `synchronize` leaves the
runtime world untouched, `record_event` changes nothing but the runtime's
event-allocation counter, every event it records is freshly allocated —
a CUDA event with interprocess capability enabled, or a new XPU event, with
an identity never used before and never reused after — and the calls made,
up to the fresh identity, are determined by the accelerator availability and
current stream alone, not by any prior call to the shim. -/
theorem shim_stateless_fresh (w v : World) :
    (synchronize w).1 = w ∧
    (record_event w).1.cudaAvailable = w.cudaAvailable ∧
    (record_event w).1.xpuAvailable = w.xpuAvailable ∧
    (record_event w).1.acceleratorAvailable = w.acceleratorAvailable ∧
    (record_event w).1.currentStream = w.currentStream ∧
    (∀ b eid, RuntimeCall.mkCudaEvent b eid ∈ (record_event w).2 →
      b = true ∧ eid = w.nextEventId ∧ eid < (record_event w).1.nextEventId) ∧
    (∀ eid, RuntimeCall.mkXpuEvent eid ∈ (record_event w).2 →
      eid = w.nextEventId ∧ eid < (record_event w).1.nextEventId) ∧
    (w.acceleratorAvailable = v.acceleratorAvailable →
     w.currentStream = v.currentStream →
      (record_event w).2.map RuntimeCall.shape
        = (record_event v).2.map RuntimeCall.shape) := by
  have hsync : (synchronize w).1 = w := by
    by_cases h : w.acceleratorAvailable <;> simp [synchronize, h]
  have hfields : (record_event w).1.cudaAvailable = w.cudaAvailable ∧
      (record_event w).1.xpuAvailable = w.xpuAvailable ∧
      (record_event w).1.acceleratorAvailable = w.acceleratorAvailable ∧
      (record_event w).1.currentStream = w.currentStream := by
    by_cases h : w.acceleratorAvailable <;>
      by_cases h1 : w.currentStream.device.type = "cuda" <;>
        by_cases h2 : w.currentStream.device.type = "xpu" <;>
          simp [record_event, h, h1, h2]
  have hcuda : ∀ b eid, RuntimeCall.mkCudaEvent b eid ∈ (record_event w).2 →
      b = true ∧ eid = w.nextEventId ∧ eid < (record_event w).1.nextEventId := by
    intro b eid hmem
    by_cases h : w.acceleratorAvailable
    · by_cases h1 : w.currentStream.device.type = "cuda"
      · simp [record_event, h, h1] at hmem ⊢
        obtain ⟨hb, he⟩ := hmem
        exact ⟨hb, he, by omega⟩
      · by_cases h2 : w.currentStream.device.type = "xpu" <;>
          simp [record_event, h, h1, h2] at hmem
    · simp [record_event, h] at hmem
  have hxpu : ∀ eid, RuntimeCall.mkXpuEvent eid ∈ (record_event w).2 →
      eid = w.nextEventId ∧ eid < (record_event w).1.nextEventId := by
    intro eid hmem
    by_cases h : w.acceleratorAvailable
    · by_cases h1 : w.currentStream.device.type = "cuda"
      · simp [record_event, h, h1] at hmem
      · by_cases h2 : w.currentStream.device.type = "xpu"
        · simp [record_event, h, h1, h2] at hmem ⊢
          exact ⟨hmem, by omega⟩
        · simp [record_event, h, h1, h2] at hmem
    · simp [record_event, h] at hmem
  have hshape : w.acceleratorAvailable = v.acceleratorAvailable →
      w.currentStream = v.currentStream →
      (record_event w).2.map RuntimeCall.shape
        = (record_event v).2.map RuntimeCall.shape := by
    intro ha hs
    by_cases h : w.acceleratorAvailable
    · by_cases h1 : w.currentStream.device.type = "cuda"
      · simp [record_event, ← ha, ← hs, h, h1, RuntimeCall.shape]
      · by_cases h2 : w.currentStream.device.type = "xpu" <;>
          simp [record_event, ← ha, ← hs, h, h1, h2, RuntimeCall.shape]
    · simp [record_event, ← ha, h, RuntimeCall.shape]
  exact ⟨hsync, hfields.1, hfields.2.1, hfields.2.2.1, hfields.2.2.2,
    hcuda, hxpu, hshape⟩

/-- Witness for C10: two worlds sharing only availability and current stream
yield the same call shapes, and `synchronize` leaves the world unchanged. -/
theorem shim_stateless_fresh_witness :
    (synchronize wAll).1 = wAll ∧
    (record_event wAll).2.map RuntimeCall.shape
      = (record_event wAlt).2.map RuntimeCall.shape :=
  ⟨(shim_stateless_fresh wAll wAlt).1,
   (shim_stateless_fresh wAll wAlt).2.2.2.2.2.2.2 rfl rfl⟩

end Torchft
